import Mathlib

/-!
Shallow embedding of the supervisor routing core of the agenticAI backend:
the routing decision parser (`app/agents/supervisor.py`), the workflow graph
nodes and router (`app/graphs/supervisor_graph.py`), the shared workflow state
(`app/graphs/state.py`), and the base-agent execution wrapper
(`app/agents/base_agent.py`).

Outbound LLM and capability calls are modelled as `Except`-valued oracles
passed to the embedded functions: `Except.ok` carries the text or result the
call produced, `Except.error` the message of a raised exception. All python
string operations used by the source (substring test, `lower`, `split`,
`strip`, slicing) are re-implemented over the character list of the string so
that every definition evaluates inside the kernel.
-/

namespace AgenticAI

/-- The apostrophe character, used to assemble the user-facing strings. -/
def apos : String := String.mk [Char.ofNat 39]

/-- Substring test over character lists: Python `pat in s` on the characters. -/
def charsContain : List Char → List Char → Bool
  | [], pat => pat.isEmpty
  | c :: rest, pat => pat.isPrefixOf (c :: rest) || charsContain rest pat

/-- Python substring operator `pat in s`. -/
def strContains (s pat : String) : Bool :=
  charsContain s.data pat.data

/-- Python `s.lower()` (ASCII case folding, which covers every keyword the
source compares against). -/
def strLower (s : String) : String :=
  String.mk (s.data.map Char.toLower)

/-- Python `s.startswith(pre)`. -/
def strStartsWith (s pre : String) : Bool :=
  pre.data.isPrefixOf s.data

/-- Python `s.strip()`: drop leading and trailing whitespace. -/
def pyStrip (s : String) : String :=
  String.mk (((s.data.dropWhile Char.isWhitespace).reverse.dropWhile
    Char.isWhitespace).reverse)

/-- Python `s[:n]`: the first `n` characters. -/
def strTake (s : String) (n : Nat) : String :=
  String.mk (s.data.take n)

/-- Helper for `splitColonTail`: the characters after the first colon, when a
colon occurs. -/
def charsAfterColon : List Char → Option (List Char)
  | [] => none
  | c :: cs => if c = ':' then some cs else charsAfterColon cs

/-- Python `line.split(':', 1)[-1]`: the text after the first colon, or the
whole line when it has no colon. -/
def splitColonTail (l : String) : String :=
  match charsAfterColon l.data with
  | some cs => String.mk cs
  | none => l

/-- Helper for `splitLines`: accumulate the current line in reverse. -/
def splitLinesAux : List Char → List Char → List String
  | [], acc => [String.mk acc.reverse]
  | c :: cs, acc =>
    if c = '\n' then String.mk acc.reverse :: splitLinesAux cs []
    else splitLinesAux cs (c :: acc)

/-- Python `content.split('\n')`. -/
def splitLines (s : String) : List String :=
  splitLinesAux s.data []

/-- Python truthiness of an optional string: `None` and the empty string are
falsy. -/
def optStrTruthy : Option String → Bool
  | none => false
  | some s => !(s == "")

/-- Python `x or y` for an optional string `x`: `y` when `x` is falsy. -/
def pyOrStr (x : Option String) (y : String) : String :=
  match x with
  | some s => if s = "" then y else s
  | none => y

/-- Python f-string interpolation of an optional string: `None` renders as
the text `"None"`. -/
def pyFormatOpt : Option String → String
  | some s => s
  | none => "None"

/-! ## Data model (`app/graphs/state.py`, `app/agents/supervisor.py`) -/

/-- The LangGraph terminal sentinel `END`. -/
def END : String := "__end__"

/-- The LangGraph entry sentinel `START`. -/
def START : String := "__start__"

/-- A transcript entry (langchain `HumanMessage` / `AIMessage`): role tag,
optional producing-agent name, text content. -/
structure Message where
  role : String
  name : Option String
  content : String
deriving Repr, DecidableEq

/-- `AgentState` from `app/graphs/state.py`: the workflow state threaded
through every node. `metadata` is kept as an association list. -/
structure AgentState where
  messages : List Message
  next_agent : Option String
  current_agent : Option String
  conversation_id : Option String
  user_id : Option String
  metadata : List (String × String)
  execution_count : Nat
  max_iterations : Nat
deriving Repr, DecidableEq

/-- `create_initial_state` from `app/graphs/state.py`. -/
def create_initial_state (user_message : String) (conversation_id : Option String)
    (user_id : Option String) : AgentState :=
  { messages := [⟨"human", none, user_message⟩]
    next_agent := some "supervisor"
    current_agent := none
    conversation_id := conversation_id
    user_id := user_id
    metadata := [("started_at", "None"), ("status", "initiated")]
    execution_count := 0
    max_iterations := 10 }

/-- `RoutingDecision` from `app/agents/supervisor.py`. -/
structure RoutingDecision where
  can_answer_directly : Bool
  direct_answer : Option String
  delegate_to : Option String
  reasoning : String
deriving Repr, DecidableEq

/-- `WORKER_AGENTS` from `app/agents/supervisor.py`. -/
def WORKER_AGENTS : List String :=
  ["data_ingestion_agent", "analysis_agent", "query_agent", "report_agent",
   "notification_agent"]

/-! ## `BaseAgent.execute` (`app/agents/base_agent.py`) -/

/-- The result dict of `BaseAgent.execute`. On success the source dict has no
`error` key and on failure no usable output; `.get` on a missing key yields
`None`, which the `Option` fields model. -/
structure ExecResult where
  agent_name : String
  success : Bool
  output : Option String
  error : Option String
deriving Repr, DecidableEq

/-- `BaseAgent.execute` over an oracle for the underlying LLM call: a
successful call yields `success=True` with the response text; a raised
exception is caught and yields `success=False` with the stringified error. -/
def executeAgent (name : String) (llmCall : Except String String) : ExecResult :=
  match llmCall with
  | .ok output => { agent_name := name, success := true, output := some output, error := none }
  | .error e => { agent_name := name, success := false, output := none, error := some e }

/-! ## `SupervisorAgent.make_routing_decision` (`app/agents/supervisor.py`) -/

/-- The `can_answer` parse: Python
`"can_answer_directly: true" in content.lower() or
 "answer directly" in content.lower() and "yes" in content.lower()`
(with Python precedence `a or (b and c)`). -/
def canAnswerParse (content : String) : Bool :=
  strContains (strLower content) "can_answer_directly: true" ||
    (strContains (strLower content) "answer directly" &&
      strContains (strLower content) "yes")

/-- The answer-extraction loop: the first line containing `direct_answer` or
`answer:` (case-insensitively), split after its first colon and stripped. -/
def extractDirectAnswer : List String → Option String
  | [] => none
  | l :: rest =>
    if strContains (strLower l) "direct_answer" || strContains (strLower l) "answer:" then
      some (pyStrip (splitColonTail l))
    else extractDirectAnswer rest

/-- The keyword chain that infers the delegation target from the lowercased
response text. -/
def inferDelegate (content_lower : String) : String :=
  if strContains content_lower "data_ingestion" || strContains content_lower "file" then
    "data_ingestion_agent"
  else if strContains content_lower "query" || strContains content_lower "database" then
    "query_agent"
  else if strContains content_lower "analysis" then
    "analysis_agent"
  else if strContains content_lower "report" then
    "report_agent"
  else if strContains content_lower "notif" then
    "notification_agent"
  else
    "analysis_agent"

/-- The parse of a successful routing-LLM response into a `RoutingDecision`
(the body of the `try` block of `make_routing_decision`). -/
def parseRoutingResponse (content : String) : RoutingDecision :=
  let can_answer := canAnswerParse content
  let direct_answer : Option String :=
    if can_answer then
      match extractDirectAnswer (splitLines content) with
      | some s => if s = "" then some content else some s
      | none => some content
    else none
  let delegate_to : Option String :=
    if !can_answer then some (inferDelegate (strLower content)) else none
  { can_answer_directly := can_answer
    direct_answer := direct_answer
    delegate_to := some (pyOrStr delegate_to "FINISH")
    reasoning := content }

/-- `make_routing_decision` over oracles for its outbound calls: `llmCall` is
the routing LLM invocation, `fallbackCall` the direct-answer fallback
`self.execute(user_message)` (whose result dict always carries an `output`
key, so `.get("output", ...)` returns that value — possibly `None`); an
`Except.error` in `fallbackCall` is anything the bare `except` catches. -/
def make_routing_decision (llmCall : Except String String)
    (fallbackCall : Except String ExecResult) : RoutingDecision :=
  match llmCall with
  | .ok content => parseRoutingResponse content
  | .error _ =>
    match fallbackCall with
    | .ok simple_response =>
      { can_answer_directly := true
        direct_answer := simple_response.output
        delegate_to := some "FINISH"
        reasoning := "Fallback to direct answer" }
    | .error _ =>
      { can_answer_directly := false
        direct_answer := none
        delegate_to := some "analysis_agent"
        reasoning := "Fallback to analysis agent" }

/-! ## Graph nodes and router (`app/graphs/supervisor_graph.py`) -/

/-- `supervisor_node` over an oracle for `make_routing_decision`: the
`Except.error` case models the outer `try/except` around the decision call
(fallback delegation to the analysis agent, `current_agent` untouched). -/
def supervisor_node (state : AgentState)
    (decisionCall : Except String RoutingDecision) : AgentState :=
  let execution_count := state.execution_count
  if optStrTruthy state.current_agent = true ∧ state.current_agent ≠ some "supervisor" then
    { state with next_agent := some END }
  else
    match decisionCall with
    | .ok decision =>
      if decision.can_answer_directly = true ∧ optStrTruthy decision.direct_answer = true then
        { state with
            messages := state.messages ++
              [⟨"ai", some "supervisor", decision.direct_answer.getD ""⟩]
            next_agent := some END
            current_agent := some "supervisor" }
      else
        { state with
            next_agent := decision.delegate_to
            current_agent := some "supervisor"
            execution_count := execution_count + 1 }
    | .error _ =>
      { state with
          next_agent := some "analysis_agent"
          execution_count := execution_count + 1 }

/-- Common body of the worker nodes (`analysis_node`, `data_ingestion_node`,
`query_node`), which differ only in the agent invoked and the name tag;
`result` is the dict returned by that agent's `execute`. -/
def worker_node (agent_name : String) (state : AgentState)
    (result : ExecResult) : AgentState :=
  let content :=
    if result.success then result.output.getD ""
    else "Error: " ++ pyFormatOpt result.error
  { state with
      messages := state.messages ++ [⟨"ai", some agent_name, content⟩]
      current_agent := some agent_name
      next_agent := some END }

/-- `analysis_node`. -/
def analysis_node (state : AgentState) (result : ExecResult) : AgentState :=
  worker_node "analysis_agent" state result

/-- `data_ingestion_node`. -/
def data_ingestion_node (state : AgentState) (result : ExecResult) : AgentState :=
  worker_node "data_ingestion_agent" state result

/-- `query_node`. -/
def query_node (state : AgentState) (result : ExecResult) : AgentState :=
  worker_node "query_agent" state result

/-- `valid_agents` from `router`. -/
def valid_agents : List String :=
  ["data_ingestion_agent", "analysis_agent", "query_agent"]

/-- `router`: the conditional-edge function out of the supervisor node. A
stored `next_agent` of `None` is not in `valid_agents`, so it also maps to
`END`. -/
def router (state : AgentState) : String :=
  let execution_count := state.execution_count
  if 3 ≤ execution_count then END
  else
    match state.next_agent with
    | none => END
    | some na =>
      if na = END ∨ na = "FINISH" ∨ valid_agents.contains na = false then END
      else na

/-- The nodes registered by `create_supervisor_workflow`. -/
def workflow_nodes : List String :=
  ["supervisor", "analysis_agent", "data_ingestion_agent", "query_agent"]

/-- The unconditional edges added by `create_supervisor_workflow`. -/
def workflow_edges : List (String × String) :=
  [(START, "supervisor"),
   ("analysis_agent", END),
   ("data_ingestion_agent", END),
   ("query_agent", END)]

/-- The target mapping passed to `add_conditional_edges` for `supervisor`. -/
def conditional_edge_map : List (String × String) :=
  [("analysis_agent", "analysis_agent"),
   ("data_ingestion_agent", "data_ingestion_agent"),
   ("query_agent", "query_agent"),
   (END, END)]

/-- Run the worker node registered under `name` (a conditional-edge target). -/
def run_worker (name : String) (state : AgentState) (result : ExecResult) : AgentState :=
  if name = "analysis_agent" then analysis_node state result
  else if name = "data_ingestion_agent" then data_ingestion_node state result
  else if name = "query_agent" then query_node state result
  else state

/-- One full pass of the compiled graph (`graph.ainvoke`): the entry edge runs
the supervisor node, `router` picks the conditional edge, and at most one
worker node runs before every edge reaches `END`. -/
def run_graph_pass (state : AgentState) (decisionCall : Except String RoutingDecision)
    (workerResult : ExecResult) : AgentState :=
  let s1 := supervisor_node state decisionCall
  let target := router s1
  if valid_agents.contains target then run_worker target s1 workerResult else s1

/-- The sequence of node names executed in one graph pass. -/
def pass_trace (state : AgentState)
    (decisionCall : Except String RoutingDecision) : List String :=
  let s1 := supervisor_node state decisionCall
  let target := router s1
  "supervisor" :: (if valid_agents.contains target then [target] else [])

/-- The state at the start of a pass on an existing checkpointed thread:
`execute_agent_workflow` passes a fresh `create_initial_state ...` as the
`ainvoke` input, and LangGraph writes each input key to its channel —
`messages` carries the `add_messages` reducer (append), every other field is a
last-value channel (overwrite). -/
def start_turn (checkpointed : AgentState) (user_message : String)
    (conversation_id : Option String) (user_id : Option String) : AgentState :=
  let fresh := create_initial_state user_message conversation_id user_id
  { fresh with messages := checkpointed.messages ++ fresh.messages }

/-- Position of a state inside the graph's execution cycle. -/
inductive Phase where
  | ready
  | routed
  | finished
deriving Repr, DecidableEq

/-- States reachable through any sequence of supervisor and worker node steps,
within one graph pass and across checkpointed turns; the decision and
capability oracles are unconstrained. `ready` states are about to run the
entry edge, `routed` states sit on the conditional edge, `finished` states
have reached `END`. -/
inductive Reachable : Phase → AgentState → Prop where
  | init : ∀ m c u, Reachable .ready (create_initial_state m c u)
  | resume : ∀ p s m c u, Reachable p s → Reachable .ready (start_turn s m c u)
  | supervisor_step : ∀ s d, Reachable .ready s → Reachable .routed (supervisor_node s d)
  | worker_step : ∀ s r, Reachable .routed s → valid_agents.contains (router s) = true →
      Reachable .finished (run_worker (router s) s r)
  | stop : ∀ s, Reachable .routed s → router s = END → Reachable .finished s

/-! ## `execute_agent_workflow` (`app/graphs/supervisor_graph.py`) -/

/-- The fixed warning when fewer than two messages exist after execution. -/
def no_response_warning : String :=
  "⚠️ I couldn" ++ apos ++ "t generate a response. Please try rephrasing your question."

/-- The fixed warning when the final message is empty or whitespace. -/
def empty_response_warning : String :=
  "⚠️ I encountered an issue. Please try again or contact support."

/-- The canned rate-limit error response. -/
def rate_limit_message : String :=
  "⚠️ **API Rate Limit Reached**\n\nPlease wait a moment and try again. Our system is temporarily at capacity."

/-- The canned timeout error response. -/
def timeout_message : String :=
  "⏱️ **Request Timed Out**\n\nThe request took too long. Please try a simpler question or try again."

/-- The canned connection error response. -/
def connection_message : String :=
  "🔌 **Connection Error**\n\nCouldn" ++ apos ++ "t connect to required services. Please check your connection and try again."

/-- The lead-in of the generic error response. -/
def generic_error_lead : String :=
  "❌ **Error Occurred**\n\n"

/-- The error-message classification in the `except` branch of
`execute_agent_workflow`. -/
def classify_error (error_msg : String) : String :=
  if strContains error_msg "429" = true ∨
      strContains (strLower error_msg) "rate_limit" = true ∨
      strContains (strLower error_msg) "too many requests" = true then
    rate_limit_message
  else if strContains (strLower error_msg) "timeout" = true then
    timeout_message
  else if strContains (strLower error_msg) "connection" = true then
    connection_message
  else
    generic_error_lead ++ strTake error_msg 150

/-- The result dict of `execute_agent_workflow`; a missing `error` key is
`none`. -/
structure ExecutionResult where
  success : Bool
  conversation_id : String
  response : String
  messages : List (String × String)
  metadata : List (String × String)
  error : Option String
deriving Repr, DecidableEq

/-- `execute_agent_workflow` over an oracle for the graph run: `Except.error`
is an exception raised anywhere inside the `try` block, `.ok` the final state
returned by `ainvoke` (initial-state construction is `create_initial_state` /
`start_turn`, and the run itself is the `Reachable` relation).
`generated_id` stands for the fresh `uuid4()` used when `conversation_id` is
absent or empty. -/
def execute_agent_workflow (conversation_id : Option String) (generated_id : String)
    (graphRun : Except String AgentState) : ExecutionResult :=
  let cid := pyOrStr conversation_id generated_id
  match graphRun with
  | .ok final_state =>
    let messages := final_state.messages
    if messages.length ≤ 1 then
      { success := false, conversation_id := cid, response := no_response_warning
        messages := [], metadata := [], error := none }
    else
      let final_message := (messages.getLast?.getD ⟨"", none, ""⟩).content
      if final_message = "" ∨ pyStrip final_message = "" then
        { success := false, conversation_id := cid, response := empty_response_warning
          messages := messages.map (fun m => (m.role, m.content))
          metadata := [], error := none }
      else
        { success := true, conversation_id := cid, response := final_message
          messages := messages.map (fun m => (m.role, m.content))
          metadata := final_state.metadata, error := none }
  | .error e =>
    { success := false, conversation_id := cid, response := classify_error e
      messages := [], metadata := [], error := some e }

/-! ## Helper lemmas -/

/-- A supervisor step either keeps or increments the stored counter. -/
theorem supervisor_node_count (s : AgentState) (d : Except String RoutingDecision) :
    (supervisor_node s d).execution_count = s.execution_count ∨
    (supervisor_node s d).execution_count = s.execution_count + 1 := by
  simp only [supervisor_node]
  split
  · left; rfl
  · split
    · split
      · left; rfl
      · right; rfl
    · right; rfl

/-- Worker nodes never touch the stored counter. -/
theorem worker_node_count (n : String) (s : AgentState) (r : ExecResult) :
    (worker_node n s r).execution_count = s.execution_count := rfl

/-- Dispatching to any conditional-edge target preserves the counter. -/
theorem run_worker_count (n : String) (s : AgentState) (r : ExecResult) :
    (run_worker n s r).execution_count = s.execution_count := by
  unfold run_worker
  split
  · exact worker_node_count _ _ _
  · split
    · exact worker_node_count _ _ _
    · split
      · exact worker_node_count _ _ _
      · rfl

/-- A string the router accepts is one of the three wired workers. -/
theorem mem_valid_agents {w : String} (h : valid_agents.contains w = true) :
    w = "data_ingestion_agent" ∨ w = "analysis_agent" ∨ w = "query_agent" := by
  simp [valid_agents] at h
  tauto

/-- Phase-indexed strengthening of the safety invariant: a pass starts with a
zero counter (the `ainvoke` input overwrites the `execution_count` channel),
and no reachable state stores more than 1. -/
theorem reachable_count_invariant :
    ∀ p s, Reachable p s →
      (p = Phase.ready → s.execution_count = 0) ∧ s.execution_count ≤ 1 := by
  intro p s h
  induction h with
  | init m c u => exact ⟨fun _ => rfl, Nat.zero_le 1⟩
  | resume p s m c u _ _ => exact ⟨fun _ => rfl, Nat.zero_le 1⟩
  | supervisor_step s d hs ih =>
    refine ⟨fun hq => (nomatch hq), ?_⟩
    have h0 : s.execution_count = 0 := ih.1 rfl
    rcases supervisor_node_count s d with h | h <;> omega
  | worker_step s r hs hv ih =>
    refine ⟨fun hq => (nomatch hq), ?_⟩
    rw [run_worker_count]
    exact ih.2
  | stop s hs hr ih => exact ⟨fun hq => (nomatch hq), ih.2⟩

/-- The source condition for a worker-return step is refuted when
`current_agent` is falsy or equals `"supervisor"`. -/
theorem not_worker_return {s : AgentState}
    (hcur : optStrTruthy s.current_agent = false ∨ s.current_agent = some "supervisor") :
    ¬(optStrTruthy s.current_agent = true ∧ s.current_agent ≠ some "supervisor") := by
  rcases hcur with h | h
  · rintro ⟨h1, _⟩
    rw [h] at h1
    exact Bool.noConfusion h1
  · rintro ⟨_, h2⟩
    exact h2 h

/-! ## Claims -/

/-- C1: across any sequence of supervisor and worker node steps, within one
graph pass and across checkpointed turns, the stored `execution_count` never
exceeds 3, and the router returns the terminal sentinel whenever
`execution_count` is at least 3. -/
theorem execution_count_never_exceeds_three :
    (∀ p s, Reachable p s → s.execution_count ≤ 3) ∧
    (∀ s : AgentState, 3 ≤ s.execution_count → router s = END) := by
  constructor
  · intro p s h
    have hle := (reachable_count_invariant p s h).2
    omega
  · intro s h
    simp only [router]
    rw [if_pos h]

/-- Witness for C1 at concrete inputs. -/
theorem execution_count_never_exceeds_three_witness :
    (create_initial_state "hi" none none).execution_count ≤ 3 ∧
    router { create_initial_state "hi" none none with
             execution_count := 3, next_agent := some "analysis_agent" } = END := by
  constructor
  · exact execution_count_never_exceeds_three.1 Phase.ready _ (Reachable.init "hi" none none)
  · exact execution_count_never_exceeds_three.2 _ (by decide)

/-- C2: in every single graph pass at most one worker runs and only right
after the supervisor; every worker node unconditionally sets `next_agent` to
the terminal sentinel and every worker's outgoing edge goes to `END`, so the
per-pass node depth is at most 2. -/
theorem per_pass_depth_at_most_two :
    (∀ s d, pass_trace s d = ["supervisor"] ∨
      ∃ w, valid_agents.contains w = true ∧ pass_trace s d = ["supervisor", w]) ∧
    (∀ w s r, valid_agents.contains w = true → (run_worker w s r).next_agent = some END) ∧
    (∀ w, valid_agents.contains w = true → (w, END) ∈ workflow_edges) := by
  refine ⟨?_, ?_, ?_⟩
  · intro s d
    by_cases h : valid_agents.contains (router (supervisor_node s d)) = true
    · refine Or.inr ⟨router (supervisor_node s d), h, ?_⟩
      simp only [pass_trace]
      rw [if_pos h]
    · left
      simp only [pass_trace]
      rw [if_neg h]
  · intro w s r h
    rcases mem_valid_agents h with h1 | h1 | h1 <;> subst h1 <;> rfl
  · intro w h
    rcases mem_valid_agents h with h1 | h1 | h1 <;> subst h1 <;> simp [workflow_edges]

/-- Witness for C2 at concrete inputs. -/
theorem per_pass_depth_at_most_two_witness :
    valid_agents.contains "analysis_agent" = true ∧
    (run_worker "analysis_agent" (create_initial_state "m" none none)
      (executeAgent "analysis_agent" (Except.ok "fine"))).next_agent = some END ∧
    ("analysis_agent", END) ∈ workflow_edges := by
  refine ⟨by decide, ?_, ?_⟩
  · exact per_pass_depth_at_most_two.2.1 "analysis_agent" _ _ (by decide)
  · exact per_pass_depth_at_most_two.2.2 "analysis_agent" (by decide)

/-- C3 fails as stated: the built graph has no node for the report worker (nor
for the notification worker), although both are listed in `WORKER_AGENTS`;
when the routing decision names `report_agent` with the safety bound
untouched, the router sends control to `END`, not to any report node. -/
theorem no_report_or_notification_node :
    workflow_nodes.contains "report_agent" = false ∧
    workflow_nodes.contains "notification_agent" = false ∧
    "report_agent" ∈ WORKER_AGENTS ∧
    "notification_agent" ∈ WORKER_AGENTS ∧
    ((parseRoutingResponse "delegate this to the report agent").delegate_to =
      some "report_agent") ∧
    ((create_initial_state "make a report" none none).execution_count < 3) ∧
    (router (supervisor_node (create_initial_state "make a report" none none)
      (Except.ok (parseRoutingResponse "delegate this to the report agent"))) = END) ∧
    END ≠ "report_agent" := by decide

/-- Evaluation of the router at a wired worker target below the bound. -/
theorem router_eval (s : AgentState) (w : String)
    (hna : s.next_agent = some w) (hc : s.execution_count < 3)
    (hw : valid_agents.contains w = true) (h1 : w ≠ END) (h2 : w ≠ "FINISH") :
    router s = w := by
  have hw2 : w ∈ valid_agents := by simpa using hw
  simp only [router, hna]
  rw [if_neg (by omega)]
  rw [if_neg (by simp [h1, h2, hw2])]

/-- C3 amended: the graph contains one node per wired worker — ingestion,
analysis and query — and whenever the routing decision names one of those
three on a non-worker-return step and the incremented counter stays below the
safety bound, control transfers from the supervisor to that worker's node
(report and notification targets instead route to the terminal state). -/
theorem router_transfers_to_wired_worker
    (s : AgentState) (d : RoutingDecision) (w : String)
    (hw : valid_agents.contains w = true)
    (hcur : optStrTruthy s.current_agent = false ∨ s.current_agent = some "supervisor")
    (hca : ¬(d.can_answer_directly = true ∧ optStrTruthy d.direct_answer = true))
    (hdel : d.delegate_to = some w)
    (hcount : s.execution_count + 1 < 3) :
    workflow_nodes.contains w = true ∧
    router (supervisor_node s (Except.ok d)) = w := by
  have hs1 : supervisor_node s (Except.ok d) =
      { s with next_agent := d.delegate_to, current_agent := some "supervisor",
               execution_count := s.execution_count + 1 } := by
    simp only [supervisor_node, if_neg (not_worker_return hcur), if_neg hca]
  constructor
  · rcases mem_valid_agents hw with h1 | h1 | h1 <;> subst h1 <;> decide
  · have hne : w ≠ END ∧ w ≠ "FINISH" := by
      rcases mem_valid_agents hw with h1 | h1 | h1 <;> subst h1 <;> exact ⟨by decide, by decide⟩
    rw [hs1]
    exact router_eval _ w hdel (by simpa using hcount) hw hne.1 hne.2

/-- Witness for the amended C3 at concrete inputs. -/
theorem router_transfers_to_wired_worker_witness :
    workflow_nodes.contains "query_agent" = true ∧
    router (supervisor_node (create_initial_state "q" none none)
      (Except.ok ⟨false, none, some "query_agent", "needs the database"⟩)) = "query_agent" := by
  exact router_transfers_to_wired_worker
    (create_initial_state "q" none none) ⟨false, none, some "query_agent", "needs the database"⟩
    "query_agent" (by decide) (Or.inl (by decide)) (by decide) rfl (by decide)

/-- The keyword chain never infers an empty target name. -/
theorem inferDelegate_ne_empty (x : String) : inferDelegate x ≠ "" := by
  unfold inferDelegate
  split
  · decide
  · split
    · decide
    · split
      · decide
      · split
        · decide
        · split
          · decide
          · decide

/-- The parsed decision of a delegating response carries the inferred target. -/
theorem parse_delegates (content : String) (hca : canAnswerParse content = false) :
    (parseRoutingResponse content).delegate_to =
      some (inferDelegate (strLower content)) := by
  simp only [parseRoutingResponse, hca, Bool.not_false, if_true, if_false, Bool.false_eq_true,
    pyOrStr]
  rw [if_neg (inferDelegate_ne_empty _)]

/-- C4: `make_routing_decision` is total and always yields a usable decision:
its delegation field is always populated; when no keyword can be inferred from
a delegating response it falls back to the analysis worker; a raised model
call uses the direct-answer fallback call; and when that also fails it returns
a decision delegating to the analysis worker with the fixed fallback
reasoning string. -/
theorem make_routing_decision_always_usable :
    (∀ llm fb, (make_routing_decision llm fb).delegate_to.isSome = true) ∧
    (∀ content fb, canAnswerParse content = false →
      strContains (strLower content) "data_ingestion" = false →
      strContains (strLower content) "file" = false →
      strContains (strLower content) "query" = false →
      strContains (strLower content) "database" = false →
      strContains (strLower content) "analysis" = false →
      strContains (strLower content) "report" = false →
      strContains (strLower content) "notif" = false →
      (make_routing_decision (Except.ok content) fb).delegate_to = some "analysis_agent") ∧
    (∀ e r, make_routing_decision (Except.error e) (Except.ok r) =
      { can_answer_directly := true, direct_answer := r.output,
        delegate_to := some "FINISH", reasoning := "Fallback to direct answer" }) ∧
    (∀ e e2, make_routing_decision (Except.error e) (Except.error e2) =
      { can_answer_directly := false, direct_answer := none,
        delegate_to := some "analysis_agent", reasoning := "Fallback to analysis agent" }) := by
  refine ⟨?_, ?_, fun e r => rfl, fun e e2 => rfl⟩
  · intro llm fb
    cases llm with
    | ok content => simp [make_routing_decision, parseRoutingResponse]
    | error e => cases fb <;> rfl
  · intro content fb hca h1 h2 h3 h4 h5 h6 h7
    show (parseRoutingResponse content).delegate_to = some "analysis_agent"
    rw [parse_delegates content hca]
    simp [inferDelegate, h1, h2, h3, h4, h5, h6, h7]

/-- Witness for C4 at concrete inputs. -/
theorem make_routing_decision_always_usable_witness :
    canAnswerParse "hmm" = false ∧
    (make_routing_decision (Except.ok "hmm") (Except.error "z")).delegate_to =
      some "analysis_agent" ∧
    make_routing_decision (Except.error "a") (Except.error "b") =
      { can_answer_directly := false, direct_answer := none,
        delegate_to := some "analysis_agent", reasoning := "Fallback to analysis agent" } := by
  refine ⟨by decide, ?_, ?_⟩
  · exact make_routing_decision_always_usable.2.1 "hmm" (Except.error "z") (by decide)
      (by decide) (by decide) (by decide) (by decide) (by decide) (by decide) (by decide)
  · exact make_routing_decision_always_usable.2.2.2 "a" "b"

/-- C5 fails as stated: with the reachable double-fallback decision
(`can_answer_directly` true, `direct_answer` `None`, target `"FINISH"`), the
supervisor step increments `execution_count` by one even though it delegates
to no worker — the router sends the pass straight to `END`. -/
theorem increment_without_worker_delegation :
    (make_routing_decision (Except.error "boom")
        (Except.ok (executeAgent "supervisor" (Except.error "down"))) =
      { can_answer_directly := true, direct_answer := none,
        delegate_to := some "FINISH", reasoning := "Fallback to direct answer" }) ∧
    ((supervisor_node (create_initial_state "hello" none none)
        (Except.ok ⟨true, none, some "FINISH", "Fallback to direct answer"⟩)).execution_count =
      (create_initial_state "hello" none none).execution_count + 1) ∧
    (router (supervisor_node (create_initial_state "hello" none none)
        (Except.ok ⟨true, none, some "FINISH", "Fallback to direct answer"⟩)) = END) ∧
    valid_agents.contains END = false := by decide

/-- C5 amended: a supervisor step increments `execution_count` by exactly one
iff it takes the delegation branch — it is not a worker-return step and the
decision carries no usable direct answer (including when the decision call
raised, or the stored target is the sentinel `"FINISH"` or an unrecognized
name) — and leaves the counter unchanged otherwise; worker nodes never change
the counter. -/
theorem execution_count_increment_characterization
    (s : AgentState) (dc : Except String RoutingDecision) :
    ((supervisor_node s dc).execution_count =
      if optStrTruthy s.current_agent = true ∧ s.current_agent ≠ some "supervisor" then
        s.execution_count
      else
        match dc with
        | .ok d =>
          if d.can_answer_directly = true ∧ optStrTruthy d.direct_answer = true then
            s.execution_count
          else s.execution_count + 1
        | .error _ => s.execution_count + 1) ∧
    (∀ n r, (worker_node n s r).execution_count = s.execution_count) := by
  refine ⟨?_, fun n r => rfl⟩
  cases dc with
  | ok d =>
    simp only [supervisor_node]
    by_cases h : optStrTruthy s.current_agent = true ∧ s.current_agent ≠ some "supervisor"
    · rw [if_pos h, if_pos h]
    · rw [if_neg h, if_neg h]
      by_cases h2 : d.can_answer_directly = true ∧ optStrTruthy d.direct_answer = true
      · rw [if_pos h2, if_pos h2]
      · rw [if_neg h2, if_neg h2]
  | error e =>
    simp only [supervisor_node]
    by_cases h : optStrTruthy s.current_agent = true ∧ s.current_agent ≠ some "supervisor"
    · rw [if_pos h, if_pos h]
    · rw [if_neg h, if_neg h]

/-- C6: when the routing decision delegates, the target worker is inferred
from keyword presence in the response text in a fixed precedence, defaulting
to the analysis worker when no keyword matches. -/
theorem delegation_keyword_mapping (content : String) (fb : Except String ExecResult)
    (hca : canAnswerParse content = false) :
    ((make_routing_decision (Except.ok content) fb).can_answer_directly = false) ∧
    (strContains (strLower content) "data_ingestion" = true ∨
        strContains (strLower content) "file" = true →
      (make_routing_decision (Except.ok content) fb).delegate_to =
        some "data_ingestion_agent") ∧
    (strContains (strLower content) "data_ingestion" = false →
      strContains (strLower content) "file" = false →
      strContains (strLower content) "query" = true ∨
        strContains (strLower content) "database" = true →
      (make_routing_decision (Except.ok content) fb).delegate_to = some "query_agent") ∧
    (strContains (strLower content) "data_ingestion" = false →
      strContains (strLower content) "file" = false →
      strContains (strLower content) "query" = false →
      strContains (strLower content) "database" = false →
      strContains (strLower content) "analysis" = true →
      (make_routing_decision (Except.ok content) fb).delegate_to = some "analysis_agent") ∧
    (strContains (strLower content) "data_ingestion" = false →
      strContains (strLower content) "file" = false →
      strContains (strLower content) "query" = false →
      strContains (strLower content) "database" = false →
      strContains (strLower content) "analysis" = false →
      strContains (strLower content) "report" = true →
      (make_routing_decision (Except.ok content) fb).delegate_to = some "report_agent") ∧
    (strContains (strLower content) "data_ingestion" = false →
      strContains (strLower content) "file" = false →
      strContains (strLower content) "query" = false →
      strContains (strLower content) "database" = false →
      strContains (strLower content) "analysis" = false →
      strContains (strLower content) "report" = false →
      strContains (strLower content) "notif" = true →
      (make_routing_decision (Except.ok content) fb).delegate_to =
        some "notification_agent") ∧
    (strContains (strLower content) "data_ingestion" = false →
      strContains (strLower content) "file" = false →
      strContains (strLower content) "query" = false →
      strContains (strLower content) "database" = false →
      strContains (strLower content) "analysis" = false →
      strContains (strLower content) "report" = false →
      strContains (strLower content) "notif" = false →
      (make_routing_decision (Except.ok content) fb).delegate_to =
        some "analysis_agent") := by
  have hdel : (make_routing_decision (Except.ok content) fb).delegate_to =
      some (inferDelegate (strLower content)) := parse_delegates content hca
  refine ⟨by simp [make_routing_decision, parseRoutingResponse, hca], ?_, ?_, ?_, ?_, ?_, ?_⟩
  · intro h
    rw [hdel]
    rcases h with h | h <;> simp [inferDelegate, h]
  · intro h1 h2 h
    rw [hdel]
    rcases h with h | h <;> simp [inferDelegate, h1, h2, h]
  · intro h1 h2 h3 h4 h
    rw [hdel]
    simp [inferDelegate, h1, h2, h3, h4, h]
  · intro h1 h2 h3 h4 h5 h
    rw [hdel]
    simp [inferDelegate, h1, h2, h3, h4, h5, h]
  · intro h1 h2 h3 h4 h5 h6 h
    rw [hdel]
    simp [inferDelegate, h1, h2, h3, h4, h5, h6, h]
  · intro h1 h2 h3 h4 h5 h6 h7
    rw [hdel]
    simp [inferDelegate, h1, h2, h3, h4, h5, h6, h7]

/-- Witness for C6 at concrete inputs. -/
theorem delegation_keyword_mapping_witness :
    canAnswerParse "check the database" = false ∧
    (make_routing_decision (Except.ok "check the database") (Except.error "x")).delegate_to =
      some "query_agent" := by
  refine ⟨by decide, ?_⟩
  exact (delegation_keyword_mapping "check the database" (Except.error "x")
    (by decide)).2.2.1 (by decide) (by decide) (Or.inr (by decide))

/-- Stripping a string that begins with a non-whitespace character never
yields the empty string. -/
theorem pyStrip_ne_empty_of_head (c : Char) (l : List Char) (hc : c.isWhitespace = false) :
    pyStrip (String.mk (c :: l)) ≠ "" := by
  unfold pyStrip
  intro h
  have hd : (((c :: l).dropWhile Char.isWhitespace).reverse.dropWhile
      Char.isWhitespace).reverse = [] := by
    have h2 := congrArg String.data h
    simpa using h2
  rw [List.reverse_eq_nil_iff, List.dropWhile_eq_nil_iff] at hd
  have hmem : c ∈ ((c :: l).dropWhile Char.isWhitespace).reverse := by
    rw [List.dropWhile_cons]
    rw [if_neg (by simp [hc])]
    simp
  have hws := hd c hmem
  rw [hc] at hws
  exact Bool.noConfusion hws

/-- An error-tagged worker message survives stripping. -/
theorem pyStrip_error_text_ne_empty (t : String) : pyStrip ("Error: " ++ t) ≠ "" := by
  obtain ⟨l⟩ := t
  exact pyStrip_ne_empty_of_head 'E' _ (by decide)

/-- An error-tagged worker message is not the empty string. -/
theorem error_text_ne_empty (t : String) : ("Error: " ++ t) ≠ "" := by
  obtain ⟨l⟩ := t
  intro h
  have h2 := congrArg String.data h
  simp at h2

/-- Evaluation of `execute_agent_workflow` on a final state with at least two
messages and a non-blank final message. -/
theorem execute_ok_success (cid : Option String) (g : String) (fs : AgentState)
    (hlen : ¬ fs.messages.length ≤ 1)
    (hne : (fs.messages.getLast?.getD ⟨"", none, ""⟩).content ≠ "")
    (hstrip : pyStrip ((fs.messages.getLast?.getD ⟨"", none, ""⟩).content) ≠ "") :
    execute_agent_workflow cid g (Except.ok fs) =
      { success := true, conversation_id := pyOrStr cid g,
        response := (fs.messages.getLast?.getD ⟨"", none, ""⟩).content,
        messages := fs.messages.map (fun m => (m.role, m.content)),
        metadata := fs.metadata, error := none } := by
  simp only [execute_agent_workflow]
  rw [if_neg hlen]
  rw [if_neg (by push_neg; exact ⟨hne, hstrip⟩)]

/-- C7: on any exception raised during graph execution,
`execute_agent_workflow` returns a populated failure result (it never raises:
the embedding is a total function of the run outcome) whose response is picked
by substring classification into exactly one of the rate-limit, timeout,
connection or generic categories, and whose `error` field keeps the raw error
text. -/
theorem workflow_exception_classified (cid : Option String) (g e : String) :
    ((execute_agent_workflow cid g (Except.error e)).success = false) ∧
    ((execute_agent_workflow cid g (Except.error e)).error = some e) ∧
    ((execute_agent_workflow cid g (Except.error e)).messages = []) ∧
    ((execute_agent_workflow cid g (Except.error e)).response = classify_error e) ∧
    (strContains e "429" = true ∨ strContains (strLower e) "rate_limit" = true ∨
        strContains (strLower e) "too many requests" = true →
      classify_error e = rate_limit_message) ∧
    (¬(strContains e "429" = true ∨ strContains (strLower e) "rate_limit" = true ∨
        strContains (strLower e) "too many requests" = true) →
      strContains (strLower e) "timeout" = true →
      classify_error e = timeout_message) ∧
    (¬(strContains e "429" = true ∨ strContains (strLower e) "rate_limit" = true ∨
        strContains (strLower e) "too many requests" = true) →
      strContains (strLower e) "timeout" = false →
      strContains (strLower e) "connection" = true →
      classify_error e = connection_message) ∧
    (¬(strContains e "429" = true ∨ strContains (strLower e) "rate_limit" = true ∨
        strContains (strLower e) "too many requests" = true) →
      strContains (strLower e) "timeout" = false →
      strContains (strLower e) "connection" = false →
      classify_error e = generic_error_lead ++ strTake e 150) ∧
    (classify_error e = rate_limit_message ∨ classify_error e = timeout_message ∨
      classify_error e = connection_message ∨
      classify_error e = generic_error_lead ++ strTake e 150) := by
  refine ⟨rfl, rfl, rfl, rfl, ?_, ?_, ?_, ?_, ?_⟩
  · intro h
    unfold classify_error
    rw [if_pos h]
  · intro hn ht
    unfold classify_error
    rw [if_neg hn, if_pos ht]
  · intro hn ht hc
    unfold classify_error
    rw [if_neg hn, if_neg (by simp [ht]), if_pos hc]
  · intro hn ht hc
    unfold classify_error
    rw [if_neg hn, if_neg (by simp [ht]), if_neg (by simp [hc])]
  · unfold classify_error
    split
    · exact Or.inl rfl
    · split
      · exact Or.inr (Or.inl rfl)
      · split
        · exact Or.inr (Or.inr (Or.inl rfl))
        · exact Or.inr (Or.inr (Or.inr rfl))

/-- Witness for C7 at concrete inputs. -/
theorem workflow_exception_classified_witness :
    (execute_agent_workflow none "gid" (Except.error "Request timeout")).success = false ∧
    (execute_agent_workflow none "gid" (Except.error "Request timeout")).error =
      some "Request timeout" ∧
    classify_error "Request timeout" = timeout_message := by
  have h := workflow_exception_classified none "gid" "Request timeout"
  exact ⟨h.1, h.2.1, h.2.2.2.2.2.1 (by decide) (by decide)⟩

/-- C8: after an exception-free graph run, `execute_agent_workflow` returns
`success=false` with a fixed user-facing warning iff fewer than two messages
exist in the final state or the final message is empty or whitespace;
otherwise it returns `success=true` with the final message as the response. -/
theorem workflow_result_validation (cid : Option String) (g : String) (fs : AgentState) :
    ((execute_agent_workflow cid g (Except.ok fs)).success = false ↔
      (fs.messages.length ≤ 1 ∨
        pyStrip ((fs.messages.getLast?.getD ⟨"", none, ""⟩).content) = "")) ∧
    (fs.messages.length ≤ 1 →
      (execute_agent_workflow cid g (Except.ok fs)).response = no_response_warning) ∧
    (¬ fs.messages.length ≤ 1 →
      pyStrip ((fs.messages.getLast?.getD ⟨"", none, ""⟩).content) = "" →
      (execute_agent_workflow cid g (Except.ok fs)).response = empty_response_warning) ∧
    ((execute_agent_workflow cid g (Except.ok fs)).success = true →
      (execute_agent_workflow cid g (Except.ok fs)).response =
        (fs.messages.getLast?.getD ⟨"", none, ""⟩).content) := by
  by_cases h1 : fs.messages.length ≤ 1
  · have he : execute_agent_workflow cid g (Except.ok fs) =
        { success := false, conversation_id := pyOrStr cid g,
          response := no_response_warning, messages := [], metadata := [],
          error := none } := by
      simp only [execute_agent_workflow]
      rw [if_pos h1]
    refine ⟨?_, fun _ => by rw [he], fun h1' _ => absurd h1 h1', fun hs => ?_⟩
    · rw [he]
      simp [h1]
    · rw [he] at hs
      simp at hs
  · by_cases h2 : pyStrip ((fs.messages.getLast?.getD ⟨"", none, ""⟩).content) = ""
    · have he : execute_agent_workflow cid g (Except.ok fs) =
          { success := false, conversation_id := pyOrStr cid g,
            response := empty_response_warning,
            messages := fs.messages.map (fun m => (m.role, m.content)),
            metadata := [], error := none } := by
        simp only [execute_agent_workflow]
        rw [if_neg h1]
        rw [if_pos (Or.inr h2)]
      refine ⟨?_, fun hl => absurd hl h1, fun _ _ => by rw [he], fun hs => ?_⟩
      · rw [he]
        simp [h2]
      · rw [he] at hs
        simp at hs
    · have hne : (fs.messages.getLast?.getD ⟨"", none, ""⟩).content ≠ "" := by
        intro h0
        apply h2
        rw [h0]
        rfl
      have he := execute_ok_success cid g fs h1 hne h2
      refine ⟨?_, fun hl => absurd hl h1, fun _ h2' => absurd h2' h2, fun _ => by rw [he]⟩
      rw [he]
      simp [h1, h2]

/-- Witness for C8 at concrete inputs. -/
theorem workflow_result_validation_witness :
    ((execute_agent_workflow (some "c") "g" (Except.ok
        { create_initial_state "hi" none none with
          messages := [⟨"human", none, "hi"⟩, ⟨"ai", some "supervisor", "4"⟩] })).response =
      "4") ∧
    ((execute_agent_workflow (some "c") "g" (Except.ok
        (create_initial_state "hi" none none))).response = no_response_warning) := by
  constructor
  · exact (workflow_result_validation (some "c") "g"
      { create_initial_state "hi" none none with
        messages := [⟨"human", none, "hi"⟩, ⟨"ai", some "supervisor", "4"⟩] }).2.2.2
      (by decide)
  · exact (workflow_result_validation (some "c") "g"
      (create_initial_state "hi" none none)).2.1 (by decide)

/-- C9: a worker step whose capability reports failure (as `BaseAgent.execute`
does for every raised exception) still appends exactly one message, whose
content starts with the `Error:` lead, instead of propagating the exception;
composed with `execute_agent_workflow` the pass completes with `success=true`
and the error text embedded in the response. -/
theorem worker_failure_appends_error_message
    (w : String) (s : AgentState) (r : ExecResult) (cid : Option String) (g : String)
    (hw : valid_agents.contains w = true)
    (hr : r.success = false)
    (hm : s.messages ≠ []) :
    ((run_worker w s r).messages =
      s.messages ++ [⟨"ai", some w, "Error: " ++ pyFormatOpt r.error⟩]) ∧
    (strStartsWith ("Error: " ++ pyFormatOpt r.error) "Error:" = true) ∧
    ((execute_agent_workflow cid g (Except.ok (run_worker w s r))).success = true) ∧
    ((execute_agent_workflow cid g (Except.ok (run_worker w s r))).response =
      "Error: " ++ pyFormatOpt r.error) ∧
    (∀ nm e2, (executeAgent nm (Except.error e2)).success = false ∧
      (executeAgent nm (Except.error e2)).error = some e2) := by
  have hmsg : (run_worker w s r).messages =
      s.messages ++ [⟨"ai", some w, "Error: " ++ pyFormatOpt r.error⟩] := by
    rcases mem_valid_agents hw with h1 | h1 | h1 <;> subst h1 <;>
      simp [run_worker, analysis_node, data_ingestion_node, query_node, worker_node, hr]
  have hstart : ∀ t : String, strStartsWith ("Error: " ++ t) "Error:" = true := by
    intro t
    obtain ⟨l⟩ := t
    rfl
  have hpos : 0 < s.messages.length := List.length_pos.mpr hm
  have hlen : ¬ (run_worker w s r).messages.length ≤ 1 := by
    rw [hmsg, List.length_append]
    simp only [List.length_cons, List.length_nil]
    omega
  have hlast : (run_worker w s r).messages.getLast?.getD ⟨"", none, ""⟩ =
      ⟨"ai", some w, "Error: " ++ pyFormatOpt r.error⟩ := by
    rw [hmsg, List.getLast?_concat]
    rfl
  have hexec := execute_ok_success cid g (run_worker w s r) hlen
    (by rw [hlast]; exact error_text_ne_empty _)
    (by rw [hlast]; exact pyStrip_error_text_ne_empty _)
  refine ⟨hmsg, hstart _, ?_, ?_, fun nm e2 => ⟨rfl, rfl⟩⟩
  · rw [hexec]
  · rw [hexec]
    simp only
    rw [hlast]

/-- Witness for C9 at concrete inputs. -/
theorem worker_failure_appends_error_message_witness :
    ((run_worker "analysis_agent" (create_initial_state "analyze" none none)
        (executeAgent "analysis_agent" (Except.error "boom"))).messages =
      (create_initial_state "analyze" none none).messages ++
        [⟨"ai", some "analysis_agent", "Error: boom"⟩]) ∧
    ((execute_agent_workflow none "gid" (Except.ok
        (run_worker "analysis_agent" (create_initial_state "analyze" none none)
          (executeAgent "analysis_agent" (Except.error "boom"))))).success = true) := by
  have h := worker_failure_appends_error_message "analysis_agent"
    (create_initial_state "analyze" none none)
    (executeAgent "analysis_agent" (Except.error "boom")) none "gid"
    (by decide) (by decide) (by decide)
  exact ⟨h.1, h.2.2.1⟩

/-- C10: when the decision claims a direct answer but its `direct_answer` is
absent or empty, the supervisor appends no message and falls through to the
delegation branch: `next_agent` becomes the decision's `delegate_to`
(possibly the sentinel `"FINISH"`), `execution_count` is incremented, and a
`"FINISH"` target then routes the pass to `END` with no agent response
added. -/
theorem empty_direct_answer_falls_through
    (s : AgentState) (d : RoutingDecision)
    (hcur : optStrTruthy s.current_agent = false ∨ s.current_agent = some "supervisor")
    (_hca : d.can_answer_directly = true)
    (hda : optStrTruthy d.direct_answer = false) :
    ((supervisor_node s (Except.ok d)).messages = s.messages) ∧
    ((supervisor_node s (Except.ok d)).next_agent = d.delegate_to) ∧
    ((supervisor_node s (Except.ok d)).execution_count = s.execution_count + 1) ∧
    (d.delegate_to = some "FINISH" → router (supervisor_node s (Except.ok d)) = END) := by
  have hnotda : ¬(d.can_answer_directly = true ∧ optStrTruthy d.direct_answer = true) := by
    rintro ⟨_, h2⟩
    rw [hda] at h2
    exact Bool.noConfusion h2
  have hs1 : supervisor_node s (Except.ok d) =
      { s with next_agent := d.delegate_to, current_agent := some "supervisor",
               execution_count := s.execution_count + 1 } := by
    simp only [supervisor_node, if_neg (not_worker_return hcur), if_neg hnotda]
  refine ⟨by rw [hs1], by rw [hs1], by rw [hs1], ?_⟩
  intro hfin
  rw [hs1]
  simp [router, hfin]

/-- Witness for C10 at concrete inputs. -/
theorem empty_direct_answer_falls_through_witness :
    ((supervisor_node (create_initial_state "hi" none none)
        (Except.ok ⟨true, none, some "FINISH", "r"⟩)).messages =
      (create_initial_state "hi" none none).messages) ∧
    (router (supervisor_node (create_initial_state "hi" none none)
        (Except.ok ⟨true, none, some "FINISH", "r"⟩)) = END) := by
  have h := empty_direct_answer_falls_through (create_initial_state "hi" none none)
    ⟨true, none, some "FINISH", "r"⟩ (Or.inl (by decide)) (by decide) (by decide)
  exact ⟨h.1, h.2.2.2 rfl⟩

end AgenticAI
